import Mathlib

/-!
Shallow embedding of the offline action queue / sync engine
(`OfflineManager`, offlineManager.js) and the payment escrow state machine
(`PaymentService`, payementServices.js) of the Mkulima Connect repository,
with theorems settling the specification claims about them.

Conventions of the embedding:
* JavaScript arrays become `List`, object records become structures.
* `localStorage` entries become explicit fields of the component state
  (`storedQueue` mirrors the persisted entry `mkulima_offline_queue`).
* The Remote Gateway (`processQueueItem` and the per-kind sync calls) is a
  parameter `gw : QueueItem → Except String String`: a thrown error in the
  source is `Except.error`, a resolved value is `Except.ok`.
* Environment-supplied values (`Date.now`, `Math.random`, the current user)
  become explicit parameters (`id`, `timestamp`, `now`, `user`).
-/

namespace Mkulima

/-- One entry of `offlineQueue`, as built by `OfflineManager.addToQueue`:
`{ id, type, data, timestamp, attempts: 0 }`.  The kind-specific payload
`data` is kept opaque as a `String`. -/
structure QueueItem where
  id : String
  type : String
  data : String
  timestamp : String
  attempts : Nat
deriving DecidableEq, Repr

/-- The caller-supplied and environment-supplied inputs of one
`addToQueue(type, data)` call (`id` and `timestamp` are generated from
`Date.now()` / `Math.random()` in the source, so they are inputs here). -/
structure EnqueueReq where
  id : String
  type : String
  data : String
  timestamp : String
deriving DecidableEq, Repr

/-- State of an `OfflineManager` instance: the in-memory `offlineQueue`,
the persisted copy under the `mkulima_offline_queue` localStorage key,
and the `syncInProgress` single-flight flag. -/
structure OMState where
  offlineQueue : List QueueItem
  storedQueue : List QueueItem
  syncInProgress : Bool
deriving DecidableEq, Repr

/-- Returns `true` exactly when a gateway dispatch resolved (no exception thrown). -/
def syncOk : Except String String → Bool
  | Except.ok _ => true
  | Except.error _ => false

/-- The queue item built by `addToQueue`: attempts start at 0. -/
def mkQueueItem (req : EnqueueReq) : QueueItem :=
  { id := req.id, type := req.type, data := req.data,
    timestamp := req.timestamp, attempts := 0 }

/-- Embeds `OfflineManager.addToQueue`: push the new item and persist the full
queue (`localStorage.setItem`) before returning. -/
def addToQueue (req : EnqueueReq) (s : OMState) : OMState :=
  let q := s.offlineQueue ++ [mkQueueItem req]
  { s with offlineQueue := q, storedQueue := q }

/-- The loop body of `attemptSync`: dispatch each item of the queue in
order, recording the item together with its gateway outcome (the source
records `{ ...item, success, result | error }`; stripping the outcome
fields recovers the original item, modelled by keeping the pair). -/
def drainResults (gw : QueueItem → Except String String)
    (q : List QueueItem) : List (QueueItem × Except String String) :=
  q.map (fun it => (it, gw it))

/-- The post-loop queue update of `attemptSync`: keep exactly the items
whose dispatch failed, stripped back to the original item. -/
def failedItemsOf (results : List (QueueItem × Except String String)) :
    List QueueItem :=
  (results.filter (fun r => !(syncOk r.2))).map Prod.fst

/-- Embeds `OfflineManager.attemptSync`, with the durable-store write allowed to
fail (`persistOk = false` models `localStorage.setItem` throwing inside
the outer `try`; the `finally` still clears `syncInProgress`).
Guard: `!navigator.onLine || this.syncInProgress ||
this.offlineQueue.length === 0` returns immediately. -/
def attemptSyncGen (onLine : Bool) (gw : QueueItem → Except String String)
    (persistOk : Bool) (s : OMState) : OMState :=
  if !onLine || s.syncInProgress || s.offlineQueue.isEmpty then s
  else
    let failed := failedItemsOf (drainResults gw s.offlineQueue)
    { offlineQueue := failed,
      storedQueue := if persistOk then failed else s.storedQueue,
      syncInProgress := false }

/-- Embeds `OfflineManager.attemptSync` on the normal path (persist succeeds). -/
def attemptSync (onLine : Bool) (gw : QueueItem → Except String String)
    (s : OMState) : OMState :=
  attemptSyncGen onLine gw true s

/-- Embeds `OfflineManager.getOfflineQueue`. -/
def getOfflineQueue (s : OMState) : List QueueItem :=
  s.offlineQueue

/-- Embeds `OfflineManager.clearOfflineQueue`: reset the queue to `[]` and
persist the empty queue. -/
def clearOfflineQueue (s : OMState) : OMState :=
  { s with offlineQueue := [], storedQueue := [] }

/-- The `OfflineManager` constructor after a restart: the queue is
reloaded from the persisted `mkulima_offline_queue` entry and
`syncInProgress` starts `false`. -/
def restart (s : OMState) : OMState :=
  { offlineQueue := s.storedQueue, storedQueue := s.storedQueue,
    syncInProgress := false }

/-- The `for (const item of this.offlineQueue)` loop with the queue
mutated while the drain is in progress: JavaScript array iteration checks
the live length each step, so items pushed by `addToQueue` during an
awaited dispatch of an earlier item are reached by the same loop.
`enq.head` holds the items appended during the current dispatch. -/
def drainLoop (gw : QueueItem → Except String String) :
    List QueueItem → List (List QueueItem) →
      List (QueueItem × Except String String)
  | [], _ => []
  | item :: rest, [] => (item, gw item) :: drainLoop gw rest []
  | item :: rest, e :: es => (item, gw item) :: drainLoop gw (rest ++ e) es
termination_by pending enq => pending.length + (enq.map List.length).sum + enq.length
decreasing_by
  all_goals simp [List.length_append]
  omega

/-- Runs `attemptSync` with a schedule `enq` of mid-drain enqueues (entry `i`
of `enq` holds the items appended while item `i` of the live queue is
being dispatched). At the end of the pass the source assigns
`this.offlineQueue = failedItems` and persists it. -/
def attemptSyncLive (onLine : Bool) (gw : QueueItem → Except String String)
    (enq : List (List QueueItem)) (s : OMState) : OMState :=
  if !onLine || s.syncInProgress || s.offlineQueue.isEmpty then s
  else
    let failed := failedItemsOf (drainLoop gw s.offlineQueue enq)
    { offlineQueue := failed, storedQueue := failed,
      syncInProgress := false }

/-! ## Payment service (`PaymentService`, payementServices.js) -/

/-- Transaction `status` values: `pending | completed | failed`. -/
inductive TxStatus where
  | pending
  | completed
  | failed
deriving DecidableEq, Repr

/-- Escrow status values: `none | held | released`. -/
inductive EscrowStatus where
  | none
  | held
  | released
deriving DecidableEq, Repr

/-- One provider configuration from `loadPaymentProviders`
(`fees.percentage`, `fees.fixed`, `limits.min`, `limits.max`).
Monetary values are rationals (the source uses JS numbers; every value
involved here is exactly representable). -/
structure Provider where
  name : String
  currency : String
  feePercentage : ℚ
  feeFixed : ℚ
  limitMin : ℚ
  limitMax : ℚ
deriving DecidableEq, Repr

def mpesa : Provider :=
  { name := "M-Pesa", currency := "KES", feePercentage := 3/2,
    feeFixed := 0, limitMin := 10, limitMax := 50000 }

def tigopesa : Provider :=
  { name := "Tigo Pesa", currency := "TSH", feePercentage := 1,
    feeFixed := 100, limitMin := 1000, limitMax := 1000000 }

def airtelmoney : Provider :=
  { name := "Airtel Money", currency := "TSH", feePercentage := 6/5,
    feeFixed := 0, limitMin := 500, limitMax := 500000 }

def vodacom : Provider :=
  { name := "Vodacom M-Pesa", currency := "TSH", feePercentage := 3/2,
    feeFixed := 0, limitMin := 1000, limitMax := 3000000 }

/-- The `this.providers` lookup table. -/
def providers (id : String) : Option Provider :=
  if id == "mpesa" then some mpesa
  else if id == "tigopesa" then some tigopesa
  else if id == "airtelmoney" then some airtelmoney
  else if id == "vodacom" then some vodacom
  else none

/-- The payment form fields consumed by `validatePayment` /
`processPayment` (`useEscrow` models the check that
`paymentData.useEscrow` equals the string `on`). -/
structure PaymentData where
  amount : ℚ
  phone : String
  useEscrow : Bool
  description : String
deriving DecidableEq, Repr

/-- The error list accumulated by `validatePayment` for a resolved
provider (the source interpolates the limit values into the min/max
messages; the message text is abstracted to a constant here, the
conditions are exact).  `!amount || amount <= 0` becomes `amount ≤ 0`. -/
def validatePaymentErrors (provider : Provider) (pd : PaymentData) :
    List String :=
  (if pd.amount ≤ 0 then ["Invalid amount"] else []) ++
  (if pd.amount < provider.limitMin then ["Minimum amount"] else []) ++
  (if pd.amount > provider.limitMax then ["Maximum amount"] else []) ++
  (if pd.phone.length < 9 then ["Valid phone number is required"] else [])

/-- Embeds `PaymentService.validatePayment`: throws the joined error list when
it is non-empty. -/
def validatePayment (provider : Provider) (pd : PaymentData) :
    Except String Unit :=
  let errors := validatePaymentErrors provider pd
  if errors.isEmpty then Except.ok ()
  else Except.error (String.intercalate ", " errors)

structure User where
  id : String
  name : String
deriving DecidableEq, Repr

/-- The transaction record built in `processPayment`
(status starts as `pending`; `escrowEnabled` is `this.escrowEnabled`
AND the `useEscrow` flag; `escrowStatus` is set to `held` already
at creation when escrow is enabled, `none` otherwise). -/
structure Transaction where
  id : String
  userId : String
  userName : String
  provider : String
  amount : ℚ
  fee : ℚ
  total : ℚ
  currency : String
  phone : String
  description : String
  status : TxStatus
  createdAt : Nat
  escrowEnabled : Bool
  escrowStatus : EscrowStatus
  completedAt : Option Nat
  failureReason : Option String
deriving DecidableEq, Repr

/-- One record of the `mkulima_escrow` localStorage entry. -/
structure EscrowRecord where
  transactionId : String
  amount : ℚ
  currency : String
  buyerId : String
  buyerName : String
  status : EscrowStatus
  heldAt : Nat
  releaseConditions : List String
  releasedAt : Option Nat
  releaseReason : Option String
deriving DecidableEq, Repr

/-- State of a `PaymentService` instance: the transaction ledger
(newest first, `unshift`) and the escrow record list (appended by
`push`), both mirrored to localStorage on every mutation. -/
structure PSState where
  transactions : List Transaction
  escrowRecords : List EscrowRecord
deriving DecidableEq, Repr

/-- Embeds `PaymentService.saveTransaction`: `unshift` onto the ledger and
persist. -/
def saveTransaction (t : Transaction) (s : PSState) : PSState :=
  { s with transactions := t :: s.transactions }

/-- The escrow record created by `holdInEscrow`. -/
def mkEscrowRecord (t : Transaction) (now : Nat) : EscrowRecord :=
  { transactionId := t.id, amount := t.amount, currency := t.currency,
    buyerId := t.userId, buyerName := t.userName, status := .held,
    heldAt := now,
    releaseConditions := ["delivery_confirmed", "no_dispute_7days"],
    releasedAt := Option.none, releaseReason := Option.none }

/-- Embeds `PaymentService.holdInEscrow`: unconditionally `push` a fresh `held`
record (the source performs no duplicate check). -/
def holdInEscrow (t : Transaction) (now : Nat) (s : PSState) : PSState :=
  { s with escrowRecords := s.escrowRecords ++ [mkEscrowRecord t now] }

/-- The transaction built at the top of `processPayment`:
`fee = amount * provider.fees.percentage / 100 + provider.fees.fixed`,
`total = amount + fee`. -/
def mkTransaction (escrowFlag : Bool) (provider : Provider)
    (providerId : String) (pd : PaymentData) (user : User) (txId : String)
    (now : Nat) : Transaction :=
  let fee := pd.amount * provider.feePercentage / 100 + provider.feeFixed
  let enabled := escrowFlag && pd.useEscrow
  { id := txId, userId := user.id, userName := user.name,
    provider := providerId, amount := pd.amount, fee := fee,
    total := pd.amount + fee, currency := provider.currency,
    phone := pd.phone,
    description := if pd.description = "" then "Payment" else pd.description,
    status := .pending, createdAt := now, escrowEnabled := enabled,
    escrowStatus := if enabled then .held else .none,
    completedAt := Option.none, failureReason := Option.none }

/-- Embeds `PaymentService.processPayment`.  Environment inputs are explicit:
`user` is `window.userManager?.getCurrentUser()`, `txId` is
`generateTransactionId()`, `pinValid` is the `simulatePinEntry()`
outcome, `now` stands for `new Date().toISOString()`.  On invalid PIN the
transaction is saved with status `failed` and the error is thrown; on
success the completed transaction is saved and, when `escrowEnabled`,
`holdInEscrow` runs. -/
def processPayment (escrowFlag : Bool) (provider : Provider)
    (providerId : String) (pd : PaymentData) (user : Option User)
    (txId : String) (pinValid : Bool) (now : Nat) (s : PSState) :
    Except String Transaction × PSState :=
  match user with
  | Option.none => (Except.error "You must be logged in to make payments", s)
  | Option.some u =>
      let tx := mkTransaction escrowFlag provider providerId pd u txId now
      if !pinValid then
        let txF := { tx with
                     status := .failed,
                     failureReason := Option.some "Invalid PIN" }
        (Except.error "Payment failed: Invalid PIN", saveTransaction txF s)
      else
        let txC := { tx with
                     status := .completed,
                     completedAt := Option.some now }
        let s1 := saveTransaction txC s
        if txC.escrowEnabled then (Except.ok txC, holdInEscrow txC now s1)
        else (Except.ok txC, s1)

/-- The `handlePayment` sequencing: `validatePayment` throws before
`processPayment` runs, so a validation failure leaves the state
untouched and creates no transaction. -/
def submitPayment (escrowFlag : Bool) (provider : Provider)
    (providerId : String) (pd : PaymentData) (user : Option User)
    (txId : String) (pinValid : Bool) (now : Nat) (s : PSState) :
    Except String Transaction × PSState :=
  match validatePayment provider pd with
  | Except.error e => (Except.error e, s)
  | Except.ok _ =>
      processPayment escrowFlag provider providerId pd user txId pinValid now s

/-- Models `findIndex` + in-place mutation of the first match, as done by
`releaseEscrow` on both lists. -/
def updateFirst (p : α → Bool) (f : α → α) : List α → List α
  | [] => []
  | x :: xs => if p x then f x :: xs else x :: updateFirst p f xs

/-- The record mutation performed by `releaseEscrow` on the matching
escrow record: set `status` to `released` and stamp `releasedAt` and
`releaseReason` (unconditionally, also when already `released`). -/
def releaseRecordUpdate (reason : String) (now : Nat)
    (e : EscrowRecord) : EscrowRecord :=
  { e with
    status := .released,
    releasedAt := Option.some now,
    releaseReason := Option.some reason }

/-- The transaction mutation performed by `releaseEscrow` on the linked
transaction. -/
def releaseTxUpdate (t : Transaction) : Transaction :=
  { t with escrowStatus := .released }

/-- Embeds `PaymentService.releaseEscrow`: throws the error
`Escrow record not found` when no record matches; otherwise updates the first matching escrow
record via `releaseRecordUpdate` and the first matching transaction (if
any) via `releaseTxUpdate`, persisting both lists. -/
def releaseEscrow (transactionId reason : String) (now : Nat)
    (s : PSState) : Except String PSState :=
  if s.escrowRecords.any (fun e => e.transactionId == transactionId) then
    Except.ok
      { transactions := updateFirst (fun t => t.id == transactionId)
          releaseTxUpdate s.transactions,
        escrowRecords :=
          updateFirst (fun e => e.transactionId == transactionId)
            (releaseRecordUpdate reason now) s.escrowRecords }
  else Except.error "Escrow record not found"

/-! ## Helper lemmas -/

theorem updateFirst_any (p : α → Bool) (f : α → α)
    (hf : ∀ x, p (f x) = p x) (l : List α) :
    (updateFirst p f l).any p = l.any p := by
  induction l with
  | nil => rfl
  | cons x xs ih =>
      by_cases h : p x = true
      · simp [updateFirst, h, hf]
      · simp only [Bool.not_eq_true] at h
        simp [updateFirst, h, ih]

theorem updateFirst_find (p : α → Bool) (f : α → α)
    (hf : ∀ x, p (f x) = p x) (l : List α) :
    (updateFirst p f l).find? p = (l.find? p).map f := by
  induction l with
  | nil => rfl
  | cons x xs ih =>
      by_cases h : p x = true
      · simp [updateFirst, h, List.find?_cons, hf]
      · simp only [Bool.not_eq_true] at h
        simp [updateFirst, h, List.find?_cons, ih]

theorem failedItemsOf_drainResults (gw : QueueItem → Except String String)
    (q : List QueueItem) :
    failedItemsOf (drainResults gw q) =
      q.filter (fun it => !(syncOk (gw it))) := by
  induction q with
  | nil => rfl
  | cons a t ih =>
      simp only [drainResults, List.map_cons, failedItemsOf,
        List.filter_cons] at *
      by_cases h : syncOk (gw a) = true
      · simpa [h] using ih
      · simp only [Bool.not_eq_true] at h
        simpa [h] using ih

theorem drainLoop_no_enqueues (gw : QueueItem → Except String String)
    (q : List QueueItem) :
    drainLoop gw q [] = drainResults gw q := by
  induction q with
  | nil => simp [drainLoop, drainResults]
  | cons a t ih => simp [drainLoop, drainResults] at *; exact ih

/-! ## Concrete sample data used by witnesses and counterexamples -/

def sampleItemA : QueueItem :=
  { id := "queue_a", type := "listing_update", data := "payloadA",
    timestamp := "2024-01-01T00:00:00Z", attempts := 0 }

def sampleItemB : QueueItem :=
  { id := "queue_b", type := "message_send", data := "payloadB",
    timestamp := "2024-01-01T00:01:00Z", attempts := 0 }

/-- A gateway stub that fails exactly the dispatch of `sampleItemA`. -/
def gwFailOnlyA : QueueItem → Except String String :=
  fun it => if it.id == "queue_a" then Except.error "Network error"
            else Except.ok "synced"

/-- A gateway stub for which every dispatch succeeds. -/
def gwAllOk : QueueItem → Except String String :=
  fun _ => Except.ok "synced"

/-! ## Claim theorems: offline queue and sync engine -/

/-- Claim C1: in a drain pass of `attemptSync`, an action is removed from
the queue if and only if its gateway dispatch succeeded — every item
whose dispatch fails remains in the queue after the pass, and every item
whose dispatch succeeds is absent from it. -/
theorem drain_removes_item_iff_dispatch_success
    (gw : QueueItem → Except String String) (s : OMState)
    (hflight : s.syncInProgress = false)
    (hne : s.offlineQueue ≠ []) (it : QueueItem) :
    it ∈ (attemptSync true gw s).offlineQueue ↔
      (it ∈ s.offlineQueue ∧ syncOk (gw it) = false) := by
  have hq : s.offlineQueue.isEmpty = false := by
    simpa [List.isEmpty_iff] using hne
  simp [attemptSync, attemptSyncGen, hflight, hq,
    failedItemsOf_drainResults, List.mem_filter]

theorem drain_removes_item_iff_dispatch_success_witness :
    sampleItemA ∈
      (attemptSync true gwFailOnlyA
        ⟨[sampleItemA, sampleItemB], [sampleItemA, sampleItemB],
          false⟩).offlineQueue :=
  (drain_removes_item_iff_dispatch_success gwFailOnlyA
      ⟨[sampleItemA, sampleItemB], [sampleItemA, sampleItemB], false⟩
      rfl (by decide) sampleItemA).mpr (by decide)

/-- Claim C2 (settling the code side): the source never increments
`attempts`.  With the queue `[sampleItemA, sampleItemB]` and a gateway
failing exactly `sampleItemA`, after the pass the queue holds
`sampleItemA` unchanged with `attempts = 0`, not `1` as the claim
states. -/
theorem attempts_not_incremented_on_failed_dispatch :
    (attemptSync true gwFailOnlyA
        ⟨[sampleItemA, sampleItemB], [sampleItemA, sampleItemB],
          false⟩).offlineQueue = [sampleItemA] ∧
      sampleItemA.attempts = 0 := by
  exact ⟨by decide, rfl⟩

/-- Claim C4: the `syncInProgress` single-flight guard — a trigger while
a drain is in progress is a no-op, and the guard is cleared at drain end
even when the durable-store write fails (`persistOk = false` path), so a
later trigger can start a new drain. -/
theorem sync_single_flight_guard
    (onLine persistOk : Bool) (gw : QueueItem → Except String String)
    (s : OMState) :
    (s.syncInProgress = true → attemptSyncGen onLine gw persistOk s = s) ∧
      (s.syncInProgress = false →
        (attemptSyncGen onLine gw persistOk s).syncInProgress = false) := by
  constructor
  · intro h
    simp [attemptSyncGen, h]
  · intro h
    unfold attemptSyncGen
    split
    · exact h
    · rfl

theorem sync_single_flight_guard_witness :
    (attemptSyncGen true gwFailOnlyA false
        ⟨[sampleItemA], [sampleItemA], false⟩).syncInProgress = false :=
  (sync_single_flight_guard true false gwFailOnlyA
      ⟨[sampleItemA], [sampleItemA], false⟩).2 rfl

theorem foldl_addToQueue_offlineQueue (reqs : List EnqueueReq)
    (s : OMState) :
    (reqs.foldl (fun st r => addToQueue r st) s).offlineQueue =
      s.offlineQueue ++ reqs.map mkQueueItem := by
  induction reqs generalizing s with
  | nil => simp
  | cons r rs ih =>
      simp only [List.foldl_cons, List.map_cons]
      rw [ih]
      simp [addToQueue]

theorem foldl_addToQueue_stored (reqs : List EnqueueReq) (s : OMState)
    (h : s.storedQueue = s.offlineQueue) :
    (reqs.foldl (fun st r => addToQueue r st) s).storedQueue =
      (reqs.foldl (fun st r => addToQueue r st) s).offlineQueue := by
  induction reqs generalizing s with
  | nil => simpa using h
  | cons r rs ih =>
      simp only [List.foldl_cons]
      exact ih _ (by simp [addToQueue])

/-- Claim C5: enqueues keep first-in-first-out order, every mutating
operation persists the full queue (`storedQueue` equals the live queue
after the fold), and the order survives a simulated restart that reloads
the queue from the durable store. -/
theorem queue_fifo_order_persisted (reqs : List EnqueueReq) (s : OMState)
    (hsync : s.storedQueue = s.offlineQueue) :
    getOfflineQueue (reqs.foldl (fun st r => addToQueue r st) s) =
        s.offlineQueue ++ reqs.map mkQueueItem ∧
      (reqs.foldl (fun st r => addToQueue r st) s).storedQueue =
        getOfflineQueue (reqs.foldl (fun st r => addToQueue r st) s) ∧
      getOfflineQueue (restart (reqs.foldl (fun st r => addToQueue r st) s)) =
        getOfflineQueue (reqs.foldl (fun st r => addToQueue r st) s) := by
  refine ⟨foldl_addToQueue_offlineQueue reqs s, ?_, ?_⟩
  · simpa [getOfflineQueue] using foldl_addToQueue_stored reqs s hsync
  · simp [getOfflineQueue, restart, foldl_addToQueue_stored reqs s hsync]

theorem queue_fifo_order_persisted_witness :
    getOfflineQueue
        (([⟨"q1", "listing_create", "d1", "t1"⟩,
            ⟨"q2", "message_send", "d2", "t2"⟩] :
          List EnqueueReq).foldl (fun st r => addToQueue r st)
          ⟨[], [], false⟩) =
      [mkQueueItem ⟨"q1", "listing_create", "d1", "t1"⟩,
        mkQueueItem ⟨"q2", "message_send", "d2", "t2"⟩] := by
  have h := (queue_fifo_order_persisted
    [⟨"q1", "listing_create", "d1", "t1"⟩,
      ⟨"q2", "message_send", "d2", "t2"⟩] ⟨[], [], false⟩ rfl).1
  simpa using h

/-- Claim C10: `clearOfflineQueue` unconditionally replaces the pending
queue with the empty queue and persists it, so `getOfflineQueue` returns
`[]` afterwards, also after a restart from the durable store. -/
theorem clearOfflineQueue_discards_all_persisted (s : OMState) :
    getOfflineQueue (clearOfflineQueue s) = [] ∧
      (clearOfflineQueue s).storedQueue = [] ∧
      getOfflineQueue (restart (clearOfflineQueue s)) = [] :=
  ⟨rfl, rfl, rfl⟩

theorem drainResults_map_fst (gw : QueueItem → Except String String)
    (q : List QueueItem) :
    (drainResults gw q).map Prod.fst = q := by
  induction q with
  | nil => rfl
  | cons a t ih => simp [drainResults] at *; exact ih

theorem failedItemsOf_cons (x : QueueItem × Except String String)
    (l : List (QueueItem × Except String String)) :
    failedItemsOf (x :: l) =
      if syncOk x.2 = true then failedItemsOf l
      else x.1 :: failedItemsOf l := by
  by_cases h : syncOk x.2 = true
  · simp [failedItemsOf, List.filter_cons, h]
  · simp only [Bool.not_eq_true] at h
    simp [failedItemsOf, List.filter_cons, h]

/-- Claim C8 counterexample: the source iterates the *live* queue, not a
snapshot.  With queue `[sampleItemA]`, an item `sampleItemB` enqueued
while `sampleItemA` is being dispatched, and an all-success gateway, the
pass dispatches `sampleItemB` too and leaves the queue empty — the claim
says `sampleItemB` is not dispatched in this pass and remains queued. -/
theorem mid_drain_enqueue_snapshot_counterexample :
    (drainLoop gwAllOk [sampleItemA] [[sampleItemB]]).map Prod.fst =
        [sampleItemA, sampleItemB] ∧
      (attemptSyncLive true gwAllOk [[sampleItemB]]
        ⟨[sampleItemA], [sampleItemA], false⟩).offlineQueue = [] := by
  constructor
  · simp [drainLoop, gwAllOk]
  · simp [attemptSyncLive, drainLoop, failedItemsOf, gwAllOk, syncOk]

/-- Claim C8 as amended: the drain iterates the live queue, so an action
enqueued while the dispatch of an earlier item is awaited IS dispatched in the
current pass; after the pass it is retained in the queue exactly when its
own dispatch failed. -/
theorem mid_drain_enqueued_item_dispatched_same_pass
    (gw : QueueItem → Except String String) (a : QueueItem)
    (rest new : List QueueItem) (b : QueueItem) (hb : b ∈ new) :
    b ∈ (drainLoop gw (a :: rest) [new]).map Prod.fst ∧
      (syncOk (gw b) = true →
        b ∉ failedItemsOf (drainLoop gw (a :: rest) [new])) ∧
      (syncOk (gw b) = false →
        b ∈ failedItemsOf (drainLoop gw (a :: rest) [new])) := by
  have key : drainLoop gw (a :: rest) [new] =
      (a, gw a) :: drainResults gw (rest ++ new) := by
    simp [drainLoop, drainLoop_no_enqueues]
  have hmem : b ∈ rest ++ new := List.mem_append.mpr (Or.inr hb)
  refine ⟨?_, ?_, ?_⟩
  · rw [key]
    simp only [List.map_cons, drainResults_map_fst]
    exact List.mem_cons.mpr (Or.inr hmem)
  · intro hok hcontra
    rw [key, failedItemsOf_cons] at hcontra
    have htail : b ∉ failedItemsOf (drainResults gw (rest ++ new)) := by
      rw [failedItemsOf_drainResults]
      intro hmemf
      have := (List.mem_filter.mp hmemf).2
      simp [hok] at this
    by_cases ha : syncOk (gw a) = true
    · rw [if_pos ha] at hcontra
      exact htail hcontra
    · simp only [Bool.not_eq_true] at ha
      rw [if_neg (by simp [ha])] at hcontra
      rcases List.mem_cons.mp hcontra with hba | htl
      · rw [hba] at hok
        rw [hok] at ha
        cases ha
      · exact htail htl
  · intro hfail
    rw [key, failedItemsOf_cons]
    have htail : b ∈ failedItemsOf (drainResults gw (rest ++ new)) := by
      rw [failedItemsOf_drainResults]
      exact List.mem_filter.mpr ⟨hmem, by simp [hfail]⟩
    by_cases ha : syncOk (gw a) = true
    · rw [if_pos ha]
      exact htail
    · simp only [Bool.not_eq_true] at ha
      rw [if_neg (by simp [ha])]
      exact List.mem_cons.mpr (Or.inr htail)

theorem mid_drain_enqueued_item_dispatched_same_pass_witness :
    sampleItemB ∈
      (drainLoop gwFailOnlyA [sampleItemA] [[sampleItemB]]).map Prod.fst :=
  (mid_drain_enqueued_item_dispatched_same_pass gwFailOnlyA sampleItemA
      [] [sampleItemB] sampleItemB (by decide)).1

/-! ## Claim theorems: payment escrow state machine -/

/-- Returns `true` exactly when an `Except` value is a success. -/
def isOkE : Except ε α → Bool
  | Except.ok _ => true
  | Except.error _ => false

/-- The stub provider of the end-to-end scenario in the spec:
limits `[1000, 1000000]`, `feePercent = 1.5`, `feeFixed = 0`. -/
def providerStub : Provider :=
  { name := "Stub Provider", currency := "TSH", feePercentage := 3/2,
    feeFixed := 0, limitMin := 1000, limitMax := 1000000 }

def pdEscrow : PaymentData :=
  { amount := 5000, phone := "0712345678", useEscrow := true,
    description := "Produce order" }

def sampleUser : User := { id := "u1", name := "User One" }

def heldRecordTX1 : EscrowRecord :=
  { transactionId := "TX1", amount := 5000, currency := "TSH",
    buyerId := "u1", buyerName := "User One", status := .held,
    heldAt := 0,
    releaseConditions := ["delivery_confirmed", "no_dispute_7days"],
    releasedAt := Option.none, releaseReason := Option.none }

def escrowS0 : PSState := ⟨[], [heldRecordTX1]⟩

def completedTxTX1 : Transaction :=
  { mkTransaction true providerStub "stub" pdEscrow sampleUser "TX1" 0 with
    status := TxStatus.completed, completedAt := Option.some 0 }

/-- Claim C3 counterexample: with escrow requested and a failed PIN
authorization, `processPayment` saves a transaction whose `status` is
`failed` and whose `escrowStatus` is `held` — the claim says
`escrowStatus` is `held` only after the transaction completes
successfully.  (No escrow record is created on this path.) -/
theorem escrow_held_on_failed_auth_counterexample :
    ((processPayment true providerStub "stub" pdEscrow
          (Option.some sampleUser) "TX1" false 0
          ⟨[], []⟩).2.transactions.head?).map
        (fun t => (t.status, t.escrowStatus)) =
      Option.some (TxStatus.failed, EscrowStatus.held) ∧
    (processPayment true providerStub "stub" pdEscrow
        (Option.some sampleUser) "TX1" false 0 ⟨[], []⟩).2.escrowRecords
      = [] := by
  exact ⟨rfl, rfl⟩

/-- Claim C3 as amended: `escrowStatus` is `none` exactly when escrow is
not enabled, but when escrow is enabled it is set to `held` already at
transaction creation — before and regardless of the authorization
outcome; the EscrowRecord-creating hold runs exactly once, when the
transaction completes successfully with escrow enabled, and never on a
failed authorization. -/
theorem escrowStatus_set_at_creation (eg : Bool) (prov : Provider)
    (pid : String) (pd : PaymentData) (u : User) (txId : String)
    (pin : Bool) (now : Nat) (s : PSState) :
    ((processPayment eg prov pid pd (Option.some u) txId pin now
          s).2.transactions.head?).map
        (fun t => (t.escrowEnabled, t.escrowStatus)) =
      Option.some (eg && pd.useEscrow,
        if eg && pd.useEscrow then EscrowStatus.held
        else EscrowStatus.none) ∧
      ((pin && (eg && pd.useEscrow)) = true →
        ((processPayment eg prov pid pd (Option.some u) txId pin now
              s).2.escrowRecords.map EscrowRecord.transactionId) =
          s.escrowRecords.map EscrowRecord.transactionId ++ [txId]) ∧
      ((pin && (eg && pd.useEscrow)) = false →
        (processPayment eg prov pid pd (Option.some u) txId pin now
            s).2.escrowRecords = s.escrowRecords) := by
  cases pin <;> by_cases he : (eg && pd.useEscrow) = true <;>
    simp [processPayment, mkTransaction, saveTransaction, holdInEscrow,
      mkEscrowRecord, he]

theorem escrowStatus_set_at_creation_witness :
    ((processPayment true providerStub "stub" pdEscrow
        (Option.some sampleUser) "TX2" true 0
        ⟨[], []⟩).2.escrowRecords.map EscrowRecord.transactionId)
      = ["TX2"] := by
  have h := (escrowStatus_set_at_creation true providerStub "stub"
    pdEscrow sampleUser "TX2" true 0 ⟨[], []⟩).2.1 (by decide)
  simpa using h

/-- Claim C6 counterexample: the second `releaseEscrow` call on the same
id is not a no-op — it overwrites `releasedAt` (from 5 to 9 here), while
the claim says the record, including its release timestamp, is unchanged
by the second call. -/
theorem releaseEscrow_second_call_restamps_counterexample :
    Except.map (fun s2 => s2.escrowRecords.map EscrowRecord.releasedAt)
        (Except.bind (releaseEscrow "TX1" "delivery_confirmed" 5 escrowS0)
          (fun s1 => releaseEscrow "TX1" "delivery_confirmed" 9 s1)) =
      Except.ok [Option.some 9] ∧
    Except.map (fun s1 => s1.escrowRecords.map EscrowRecord.releasedAt)
        (releaseEscrow "TX1" "delivery_confirmed" 5 escrowS0) =
      Except.ok [Option.some 5] := by
  exact ⟨rfl, rfl⟩

/-- Claim C6 as amended: for every id with an escrow record, calling
`releaseEscrow` twice leaves the status of the first matching record equal
to `released` after both calls and the second call does not error; the
second call is however not a no-op on the record — it re-stamps
`releasedAt` with the timestamp of the second call. -/
theorem releaseEscrow_ok (transactionId reason : String) (now : Nat)
    (s : PSState)
    (h : s.escrowRecords.any
      (fun e => e.transactionId == transactionId) = true) :
    releaseEscrow transactionId reason now s = Except.ok
      { transactions := updateFirst (fun t => t.id == transactionId)
          releaseTxUpdate s.transactions,
        escrowRecords :=
          updateFirst (fun e => e.transactionId == transactionId)
            (releaseRecordUpdate reason now) s.escrowRecords } := by
  simp [releaseEscrow, h]

theorem releaseRecordUpdate_pres (reason : String) (now : Nat)
    (txId : String) (e : EscrowRecord) :
    ((releaseRecordUpdate reason now e).transactionId == txId) =
      (e.transactionId == txId) := rfl

theorem releaseEscrow_idempotent_in_status (s : PSState)
    (txId r1 r2 : String) (t1 t2 : Nat)
    (h : s.escrowRecords.any (fun e => e.transactionId == txId) = true) :
    ∃ s1 s2, releaseEscrow txId r1 t1 s = Except.ok s1 ∧
      releaseEscrow txId r2 t2 s1 = Except.ok s2 ∧
      ((s1.escrowRecords.find? (fun e => e.transactionId == txId)).map
          (fun e => (e.status, e.releasedAt)) =
        Option.some (EscrowStatus.released, Option.some t1)) ∧
      ((s2.escrowRecords.find? (fun e => e.transactionId == txId)).map
          (fun e => (e.status, e.releasedAt)) =
        Option.some (EscrowStatus.released, Option.some t2)) := by
  have h1 := releaseEscrow_ok txId r1 t1 s h
  have hany1 : (updateFirst (fun e => e.transactionId == txId)
      (releaseRecordUpdate r1 t1)
      s.escrowRecords).any (fun e => e.transactionId == txId) = true := by
    rw [updateFirst_any _ _ (releaseRecordUpdate_pres r1 t1 txId)]
    exact h
  have h2 := releaseEscrow_ok txId r2 t2
    ⟨updateFirst (fun t => t.id == txId) releaseTxUpdate s.transactions,
      updateFirst (fun e => e.transactionId == txId)
        (releaseRecordUpdate r1 t1) s.escrowRecords⟩ hany1
  obtain ⟨w, hw, hpw⟩ := List.any_eq_true.mp h
  have hfind : ∃ w0, s.escrowRecords.find?
      (fun e => e.transactionId == txId) = Option.some w0 := by
    have hs : (s.escrowRecords.find?
        (fun e => e.transactionId == txId)).isSome :=
      List.find?_isSome.mpr ⟨w, hw, hpw⟩
    exact Option.isSome_iff_exists.mp hs
  obtain ⟨w0, hw0⟩ := hfind
  refine ⟨_, _, h1, h2, ?_, ?_⟩
  · rw [updateFirst_find _ _ (releaseRecordUpdate_pres r1 t1 txId), hw0]
    rfl
  · rw [updateFirst_find _ _ (releaseRecordUpdate_pres r2 t2 txId),
      updateFirst_find _ _ (releaseRecordUpdate_pres r1 t1 txId), hw0]
    rfl

theorem releaseEscrow_idempotent_in_status_witness :
    isOkE (Except.bind (releaseEscrow "TX1" "delivery_confirmed" 5 escrowS0)
      (fun s1 => releaseEscrow "TX1" "delivery_confirmed" 9 s1)) = true := by
  obtain ⟨s1, s2, h1, h2, _, _⟩ := releaseEscrow_idempotent_in_status
    escrowS0 "TX1" "delivery_confirmed" "delivery_confirmed" 5 9 (by rfl)
  rw [h1]
  show isOkE (releaseEscrow "TX1" "delivery_confirmed" 9 s1) = true
  rw [h2]
  rfl

/-- Claim C7 counterexample: `holdInEscrow` performs no duplicate check —
holding twice for the same transaction id yields two escrow records for
that id, while the claim says the second hold is rejected and at most one
record ever exists per id. -/
theorem double_hold_duplicate_records_counterexample :
    ((holdInEscrow completedTxTX1 1 (holdInEscrow completedTxTX1 0
          ⟨[], []⟩)).escrowRecords.filter
        (fun e => e.transactionId == "TX1")).length = 2 := by
  rfl

/-- Claim C7 as amended: the hold operation itself accepts duplicates —
a second `holdInEscrow` for the same transaction id appends a second
record instead of being rejected; `processPayment` invokes the hold at
most once per call (only on successful completion with escrow
enabled). -/
theorem holdInEscrow_no_duplicate_check (s : PSState) (t : Transaction)
    (n1 n2 : Nat) :
    ((holdInEscrow t n2 (holdInEscrow t n1 s)).escrowRecords.filter
        (fun e => e.transactionId == t.id)).length =
      (s.escrowRecords.filter
        (fun e => e.transactionId == t.id)).length + 2 ∧
      ∀ (eg : Bool) (prov : Provider) (pid : String) (pd : PaymentData)
        (u : Option User) (txId : String) (pin : Bool) (now : Nat),
        (processPayment eg prov pid pd u txId pin now
            s).2.escrowRecords.length ≤ s.escrowRecords.length + 1 := by
  constructor
  · simp [holdInEscrow, List.filter_append, mkEscrowRecord]
  · intro eg prov pid pd u txId pin now
    rcases u with _ | u
    · simp [processPayment]
    · cases pin
      · simp [processPayment, saveTransaction]
      · by_cases he :
          (mkTransaction eg prov pid pd u txId now).escrowEnabled = true
        · simp [processPayment, saveTransaction, holdInEscrow, he]
        · simp [processPayment, saveTransaction, he]

/-- Claim C9: an amount outside the configured `[min, max]` limits of
the provider is
rejected before any transaction is created; when validation passes, the
recorded transaction satisfies
`fee = amount * feePercent / 100 + feeFixed` and `total = amount + fee`. -/
theorem payment_fee_total_and_range (eg : Bool) (prov : Provider)
    (pid : String) (pd : PaymentData) (u : User) (txId : String)
    (pin : Bool) (now : Nat) (s : PSState) :
    ((pd.amount < prov.limitMin ∨ pd.amount > prov.limitMax) →
        (submitPayment eg prov pid pd (Option.some u) txId pin now s).2
            = s ∧
          isOkE (submitPayment eg prov pid pd (Option.some u) txId pin
            now s).1 = false) ∧
      (validatePayment prov pd = Except.ok () →
        ((submitPayment eg prov pid pd (Option.some u) txId pin now
              s).2.transactions.head?).map (fun t => (t.fee, t.total)) =
          Option.some
            (pd.amount * prov.feePercentage / 100 + prov.feeFixed,
              pd.amount +
                (pd.amount * prov.feePercentage / 100 +
                  prov.feeFixed))) := by
  constructor
  · intro hout
    have hv : (validatePaymentErrors prov pd).isEmpty = false := by
      rcases hout with hlt | hgt
      · simp [validatePaymentErrors, hlt]
      · simp [validatePaymentErrors, hgt]
    constructor <;>
      simp [submitPayment, validatePayment, hv, isOkE]
  · intro hval
    simp only [submitPayment, hval]
    cases pin
    · simp [processPayment, mkTransaction, saveTransaction]
    · by_cases he : (eg && pd.useEscrow) = true <;>
        simp [processPayment, mkTransaction, saveTransaction,
          holdInEscrow, he]

theorem payment_fee_total_and_range_witness :
    ((submitPayment true providerStub "stub" pdEscrow
          (Option.some sampleUser) "TX9" true 0
          ⟨[], []⟩).2.transactions.head?).map (fun t => (t.fee, t.total))
      = Option.some ((75 : ℚ), (5075 : ℚ)) := by
  have h := (payment_fee_total_and_range true providerStub "stub"
    pdEscrow sampleUser "TX9" true 0 ⟨[], []⟩).2 (by rfl)
  rw [h]
  norm_num [providerStub, pdEscrow]

end Mkulima
